import Mathlib

/-!
Verification development for the FAHREN weight-materialization library.

The definitions below are a shallow embedding of `src/unnamed/part_000`
(the implementation file) together with the type declarations of
`include/fahren/fahren.h`.  C machine integers are modelled as `Nat`
with explicit reduction modulo `2 ^ 64` (for `size_t` arithmetic) and
modulo `2 ^ 32` (for 32-bit float bit patterns); casts from the signed
C `int` field `density` to `size_t` are modelled by `toSize`.
Single-precision floats are modelled by their 4-byte bit patterns: the
random generator of the implementation is abstracted as an environment
function producing one 32-bit pattern per call, since no claim concerns
the numeric value of a produced float, only how many are produced and
where their bytes land in the output file.  The file system and the
fallible C library calls (`malloc`, `fopen`, `fwrite`) are modelled by
an explicit environment (`WriteEnv`) and by returning the list of
(path, bytes) pairs a call writes.
-/

set_option autoImplicit false

/-- Status codes, from `FAHRENStatus` in `include/fahren/fahren.h`. -/
inductive FAHRENStatus where
  | FAHREN_SUCCESS
  | FAHREN_ERROR_INVALID_ARGUMENT
  | FAHREN_ERROR_NOT_INITIALIZED
  | FAHREN_ERROR_PROCESSING_FAILED
deriving DecidableEq, Repr

/-- Model kinds, from `FAHRENModelType` in `include/fahren/fahren.h`. -/
inductive FAHRENModelType where
  | FAHREN_MODEL_SEQUENTIAL
deriving DecidableEq, Repr

/-- Layer kinds, from `FAHRENLayerType` in `include/fahren/fahren.h`. -/
inductive FAHRENLayerType where
  | FAHREN_LAYER_DENSE
  | FAHREN_LAYER_CONVOLUTIONAL
deriving DecidableEq, Repr

/-- `FAHRENLayer` from `include/fahren/fahren.h`: `density` is a C `int`,
`previous_layer` a pointer to the predecessor layer or NULL, `layer_type`
the kind.  The pointer chain is represented structurally (the pointed-to
predecessor is embedded), which bakes in the spec's stated invariant that
predecessor references run strictly backwards, never in a cycle. -/
inductive FAHRENLayer where
  | mk (density : Int) (previous_layer : Option FAHRENLayer) (layer_type : FAHRENLayerType)

/-- Field accessor for `FAHRENLayer.density`. -/
def FAHRENLayer.density : FAHRENLayer → Int
  | .mk d _ _ => d

/-- Field accessor for `FAHRENLayer.previous_layer`. -/
def FAHRENLayer.previous_layer : FAHRENLayer → Option FAHRENLayer
  | .mk _ p _ => p

/-- Field accessor for `FAHRENLayer.layer_type`. -/
def FAHRENLayer.layer_type : FAHRENLayer → FAHRENLayerType
  | .mk _ _ t => t

/-- The `FAHREN` model handle from `include/fahren/fahren.h`.  The C
`FAHRENLayer* layers` pointer together with `layer_count` is modelled as a
list plus the count; the loops of the implementation touch exactly the
first `layer_count` entries. -/
structure FAHREN where
  initialized : Int
  layer_count : Nat
  model_type : FAHRENModelType
  layers : List FAHRENLayer

/-- `SIZE_MAX` for the 64-bit `size_t` of the POSIX target. -/
def SIZE_MAX : Nat := 2 ^ 64 - 1

/-- C conversion of a (possibly negative) `int` value to the 64-bit
unsigned `size_t`: reduction modulo `2 ^ 64`. -/
def toSize (d : Int) : Nat := (d % (2 : Int) ^ 64).toNat

/-- `in_dim` as computed at both loops of `fahren_write_random_weights`:
`layer->previous_layer ? (size_t)layer->previous_layer->density : 1`. -/
def in_dim (layer : FAHRENLayer) : Nat :=
  match layer.previous_layer with
  | some prev => toSize prev.density
  | none => 1

/-- Per-layer weight count as computed in `fahren_write_random_weights`
(both in the counting loop and in the fill loop):
`size_t layer_weights = in_dim * out_dim;` and, for convolutional layers,
`layer_weights *= 9;` — both multiplications in wrapping `size_t`
arithmetic. -/
def layerWeights (layer : FAHRENLayer) : Nat :=
  let base := in_dim layer * toSize layer.density % 2 ^ 64
  if layer.layer_type = FAHRENLayerType.FAHREN_LAYER_CONVOLUTIONAL then
    base * 9 % 2 ^ 64
  else base

/-- The layers touched by the loops of `fahren_write_random_weights`:
`cm->layers[i]` for `0 <= i < cm->layer_count`. -/
def modelLayers (cm : FAHREN) : List FAHRENLayer := cm.layers.take cm.layer_count

/-- The counting loop of `fahren_write_random_weights`: accumulates
`total_weights` and `total_biases` over the layers, failing (`none`,
which the caller maps to `FAHREN_ERROR_PROCESSING_FAILED`) whenever
adding a per-layer count to the running total would exceed `SIZE_MAX`.
The two accumulator arguments start at 0. -/
def countParams : List FAHRENLayer → Nat → Nat → Option (Nat × Nat)
  | [], total_weights, total_biases => some (total_weights, total_biases)
  | layer :: rest, total_weights, total_biases =>
    let layer_weights := layerWeights layer
    if layer_weights > SIZE_MAX - total_weights then none
    else
      let out_dim := toSize layer.density
      if out_dim > SIZE_MAX - total_biases then none
      else countParams rest (total_weights + layer_weights) (total_biases + out_dim)

/-- The fill loop of `fahren_write_random_weights`: walks the layers in
order, drawing `layer_weights` random samples into the weight buffer and
then `out_dim` samples into the bias buffer for each layer.  `rng k` is
the 32-bit pattern returned by the `k`-th call to
`fahren_random_weight()`; `k` is the index of the next call. -/
def fillBuffers (rng : Nat → Nat) : List FAHRENLayer → Nat → List Nat × List Nat
  | [], _ => ([], [])
  | layer :: rest, k =>
    let layer_weights := layerWeights layer
    let out_dim := toSize layer.density
    let ws := (List.range layer_weights).map fun j => rng (k + j) % 2 ^ 32
    let bs := (List.range out_dim).map fun j => rng (k + layer_weights + j) % 2 ^ 32
    let restBuffers := fillBuffers rng rest (k + layer_weights + out_dim)
    (ws ++ restBuffers.1, bs ++ restBuffers.2)

/-- Magic constant written at the head of a blob
(`uint32_t magic = 0x4641484E;`). -/
def FAHREN_MAGIC : Nat := 0x4641484E

/-- `FAHREN_VERSION_MAJOR` from the header. -/
def FAHREN_VERSION_MAJOR : Nat := 1

/-- `FAHREN_VERSION_MINOR` from the header. -/
def FAHREN_VERSION_MINOR : Nat := 0

/-- `FAHREN_VERSION_PATCH` from the header. -/
def FAHREN_VERSION_PATCH : Nat := 0

/-- Little-endian byte serialization of a `uint32_t` value. -/
def bytesOfUInt32 (v : Nat) : List Nat :=
  [v % 256, v / 256 % 256, v / 256 ^ 2 % 256, v / 256 ^ 3 % 256]

/-- Little-endian byte serialization of a `uint64_t` value. -/
def bytesOfUInt64 (v : Nat) : List Nat :=
  [v % 256, v / 256 % 256, v / 256 ^ 2 % 256, v / 256 ^ 3 % 256,
   v / 256 ^ 4 % 256, v / 256 ^ 5 % 256, v / 256 ^ 6 % 256, v / 256 ^ 7 % 256]

/-- Byte serialization of a buffer of single-precision floats, each float
represented by its 32-bit pattern (4 bytes each). -/
def bytesOfFloats : List Nat → List Nat
  | [] => []
  | sample :: rest => bytesOfUInt32 sample ++ bytesOfFloats rest

/-- Nondeterministic inputs of one call to `fahren_write_random_weights`:
the random stream (one abstract 32-bit pattern per call of
`fahren_random_weight()`), whether each of the two `malloc` calls
succeeds, whether `fopen` succeeds, and how many `fwrite` calls succeed
before the first failing one. -/
structure WriteEnv where
  rng : Nat → Nat
  weights_alloc_ok : Bool
  biases_alloc_ok : Bool
  open_ok : Bool
  fwrite_budget : Nat

/-- The sequence of `fwrite` calls made by `fahren_write_random_weights`:
six header fields, then the weight buffer (only when non-empty), then
the bias buffer (only when non-empty), matching the
`if (total_weights > 0)` / `if (total_biases > 0)` guards in the C. -/
def blobChunks (total_weights total_biases : Nat) (weights biases : List Nat) :
    List (List Nat) :=
  [bytesOfUInt32 FAHREN_MAGIC, bytesOfUInt32 FAHREN_VERSION_MAJOR,
   bytesOfUInt32 FAHREN_VERSION_MINOR, bytesOfUInt32 FAHREN_VERSION_PATCH,
   bytesOfUInt64 total_weights, bytesOfUInt64 total_biases]
  ++ (if 0 < total_weights then [bytesOfFloats weights] else [])
  ++ (if 0 < total_biases then [bytesOfFloats biases] else [])

/-- `fahren_write_random_weights` from `src/unnamed/part_000`.  Returns
the status together with the file-system effect: the list of
(path, contents) pairs of files the call created or truncated (at most
one; empty when the call returned before reaching `fopen`).  A partial
file is left behind when a mid-stream `fwrite` fails, exactly as the C
`goto io_error` path does. -/
def fahren_write_random_weights (env : WriteEnv) (cm : Option FAHREN)
    (path : Option String) : FAHRENStatus × List (String × List Nat) :=
  match cm, path with
  | none, _ => (FAHRENStatus.FAHREN_ERROR_INVALID_ARGUMENT, [])
  | some _, none => (FAHRENStatus.FAHREN_ERROR_INVALID_ARGUMENT, [])
  | some cm, some path =>
    if cm.initialized = 0 then (FAHRENStatus.FAHREN_ERROR_NOT_INITIALIZED, [])
    else
      match countParams (modelLayers cm) 0 0 with
      | none => (FAHRENStatus.FAHREN_ERROR_PROCESSING_FAILED, [])
      | some (total_weights, total_biases) =>
        if 0 < total_weights ∧ env.weights_alloc_ok = false then
          (FAHRENStatus.FAHREN_ERROR_PROCESSING_FAILED, [])
        else if 0 < total_biases ∧ env.biases_alloc_ok = false then
          (FAHRENStatus.FAHREN_ERROR_PROCESSING_FAILED, [])
        else
          let buffers := fillBuffers env.rng (modelLayers cm) 0
          if env.open_ok = false then
            (FAHRENStatus.FAHREN_ERROR_PROCESSING_FAILED, [])
          else
            let chunks := blobChunks total_weights total_biases buffers.1 buffers.2
            if env.fwrite_budget < chunks.length then
              (FAHRENStatus.FAHREN_ERROR_PROCESSING_FAILED,
               [(path, (chunks.take env.fwrite_budget).flatten)])
            else (FAHRENStatus.FAHREN_SUCCESS, [(path, chunks.flatten)])

/-- Observable outcome of one `fahren_init` call: the returned status, the
final contents of the handle (`none` for a NULL handle pointer), the
calls to `fahren_write_random_weights` the function triggered (handle
contents and path of each call), and the file-system effect of those
calls. -/
structure InitResult where
  status : FAHRENStatus
  handle : Option FAHREN
  writeCalls : List (FAHREN × String)
  files : List (String × List Nat)

/-- `fahren_init` from `src/unnamed/part_000`: after validating its
arguments it stores `model_type`, `layer_count` and `layers` into the
handle, sets `initialized = 1`, then calls
`fahren_write_random_weights(cm, "fahren_initial_model.bin")`, casting
the returned status to void. -/
def fahren_init (env : WriteEnv) (cm : Option FAHREN)
    (model_type : FAHRENModelType) (layer_count : Nat)
    (layers : Option (List FAHRENLayer)) : InitResult :=
  match cm, layers with
  | none, _ => ⟨FAHRENStatus.FAHREN_ERROR_INVALID_ARGUMENT, none, [], []⟩
  | some c, none => ⟨FAHRENStatus.FAHREN_ERROR_INVALID_ARGUMENT, some c, [], []⟩
  | some c, some ls =>
    if layer_count = 0 then
      ⟨FAHRENStatus.FAHREN_ERROR_INVALID_ARGUMENT, some c, [], []⟩
    else
      let c' : FAHREN :=
        { initialized := 1, layer_count := layer_count,
          model_type := model_type, layers := ls }
      let w := fahren_write_random_weights env (some c')
        (some "fahren_initial_model.bin")
      ⟨FAHRENStatus.FAHREN_SUCCESS, some c', [(c', "fahren_initial_model.bin")], w.2⟩

/-- Total of the per-layer weight counts over a layer list. -/
def sumWeights (xs : List FAHRENLayer) : Nat := (xs.map layerWeights).sum

/-- Total of the per-layer bias counts over a layer list. -/
def sumBiases (xs : List FAHRENLayer) : Nat :=
  (xs.map fun l => toSize l.density).sum

/-- The convolutional kernel factor of the counting rule: 9 for
convolutional layers, 1 otherwise. -/
def kernelFactor (layer : FAHRENLayer) : Nat :=
  if layer.layer_type = FAHRENLayerType.FAHREN_LAYER_CONVOLUTIONAL then 9 else 1

/-- Environment in which every `malloc`, the `fopen` and every `fwrite`
succeed and every random sample has bit pattern 0. -/
def envOK : WriteEnv := ⟨fun _ => 0, true, true, true, 8⟩

/-- Environment in which `fopen` fails (every other fallible call would
succeed). -/
def envNoOpen : WriteEnv := ⟨fun _ => 0, true, true, false, 8⟩

/-- First layer of the spec's end-to-end scenario: Dense, density 3, no
predecessor. -/
def scenarioLayer0 : FAHRENLayer :=
  FAHRENLayer.mk 3 none FAHRENLayerType.FAHREN_LAYER_DENSE

/-- Second layer of the spec's end-to-end scenario: Dense, density 2,
predecessor the first layer. -/
def scenarioLayer1 : FAHRENLayer :=
  FAHRENLayer.mk 2 (some scenarioLayer0) FAHRENLayerType.FAHREN_LAYER_DENSE

/-- Initialized handle holding the end-to-end scenario's two Dense layers
of densities [3, 2]. -/
def scenarioHandle : FAHREN :=
  ⟨1, 2, FAHRENModelType.FAHREN_MODEL_SEQUENTIAL, [scenarioLayer0, scenarioLayer1]⟩

/-- A handle that was never initialized (`initialized = 0`). -/
def staleHandle : FAHREN :=
  ⟨0, 2, FAHRENModelType.FAHREN_MODEL_SEQUENTIAL, [scenarioLayer0, scenarioLayer1]⟩

/-- An initialized handle with a single Dense layer of density 1. -/
def tinyHandle : FAHREN :=
  ⟨1, 1, FAHRENModelType.FAHREN_MODEL_SEQUENTIAL,
   [FAHRENLayer.mk 1 none FAHRENLayerType.FAHREN_LAYER_DENSE]⟩

/-- Dense layer of density `INT_MAX = 2147483647`, no predecessor. -/
def wideLayer0 : FAHRENLayer :=
  FAHRENLayer.mk 2147483647 none FAHRENLayerType.FAHREN_LAYER_DENSE

/-- Convolutional layer of density `INT_MAX` whose predecessor is
`wideLayer0`: its true weight count `9 * 2147483647 * 2147483647`
exceeds `2 ^ 64`, so the `layer_weights *= 9` multiplication wraps. -/
def wideLayer1 : FAHRENLayer :=
  FAHRENLayer.mk 2147483647 (some wideLayer0)
    FAHRENLayerType.FAHREN_LAYER_CONVOLUTIONAL

/-- Dense layer of density 1500000000, no predecessor. -/
def overflowLayer0 : FAHRENLayer :=
  FAHRENLayer.mk 1500000000 none FAHRENLayerType.FAHREN_LAYER_DENSE

/-- Convolutional layer of density 1366425487 whose predecessor is
`overflowLayer0`: `9 * 1500000000 * 1366425487 = 2 ^ 64 + 790448384`,
so its wrapped per-layer weight count is the small number 790448384. -/
def overflowLayer1 : FAHRENLayer :=
  FAHRENLayer.mk 1366425487 (some overflowLayer0)
    FAHRENLayerType.FAHREN_LAYER_CONVOLUTIONAL

/-- Initialized handle holding `overflowLayer0` and `overflowLayer1`: its
true total weight count exceeds `SIZE_MAX`, yet its wrapped totals are
small. -/
def overflowHandle : FAHREN :=
  ⟨1, 2, FAHRENModelType.FAHREN_MODEL_SEQUENTIAL, [overflowLayer0, overflowLayer1]⟩

/-- The file-system effect of a successful write for `tinyHandle` in
`envOK` (used to instantiate layout statements at a concrete input). -/
def tinyFiles : List (String × List Nat) :=
  (fahren_write_random_weights envOK (some tinyHandle) (some "model.bin")).2

/-!  Helper lemmas relating the counting loop, the fill loop and the
serialized blob. -/

/-- The counting loop, when it succeeds, returns exactly the initial
accumulators plus the sums of the per-layer counts (each accumulation
step was checked against `SIZE_MAX`, so no reduction happens on the
totals themselves). -/
theorem countParams_some_eq (xs : List FAHRENLayer) :
    ∀ tw0 tb0 tw tb, countParams xs tw0 tb0 = some (tw, tb) →
      tw = tw0 + sumWeights xs ∧ tb = tb0 + sumBiases xs := by
  induction xs with
  | nil =>
    intro tw0 tb0 tw tb h
    simp only [countParams, Option.some.injEq, Prod.mk.injEq] at h
    simp [sumWeights, sumBiases, ← h.1, ← h.2]
  | cons layer rest ih =>
    intro tw0 tb0 tw tb h
    simp only [countParams] at h
    split at h
    · exact absurd h (by simp)
    · split at h
      · exact absurd h (by simp)
      · have hr := ih _ _ _ _ h
        simp only [sumWeights, sumBiases, List.map_cons, List.sum_cons] at hr ⊢
        omega

/-- The fill loop produces exactly `sumWeights xs` weight samples and
`sumBiases xs` bias samples, whatever the random stream and the start
index. -/
theorem fillBuffers_length (rng : Nat → Nat) (xs : List FAHRENLayer) :
    ∀ k, (fillBuffers rng xs k).1.length = sumWeights xs ∧
      (fillBuffers rng xs k).2.length = sumBiases xs := by
  induction xs with
  | nil => intro k; simp [fillBuffers, sumWeights, sumBiases]
  | cons layer rest ih =>
    intro k
    have hr := ih (k + layerWeights layer + toSize layer.density)
    simp only [fillBuffers, List.length_append, List.length_map, List.length_range,
      sumWeights, sumBiases, List.map_cons, List.sum_cons] at hr ⊢
    omega

/-- Each float sample serializes to 4 bytes. -/
theorem bytesOfFloats_length (xs : List Nat) :
    (bytesOfFloats xs).length = 4 * xs.length := by
  induction xs with
  | nil => rfl
  | cons a rest ih =>
    simp only [bytesOfFloats, bytesOfUInt32, List.length_append, List.length_cons,
      List.length_nil, ih]
    omega

/-- At most 8 `fwrite` calls are made for one blob. -/
theorem blobChunks_length_le (tw tb : Nat) (ws bs : List Nat) :
    (blobChunks tw tb ws bs).length ≤ 8 := by
  unfold blobChunks
  by_cases h1 : 0 < tw <;> by_cases h2 : 0 < tb <;> simp [h1, h2]

/-- Concatenating the `fwrite` chunks of a blob yields the header followed
by the weight bytes and the bias bytes, provided the buffers have the
counted lengths (so an omitted chunk is exactly an empty buffer). -/
theorem blobChunks_flatten (tw tb : Nat) (ws bs : List Nat)
    (hw : ws.length = tw) (hb : bs.length = tb) :
    (blobChunks tw tb ws bs).flatten =
      bytesOfUInt32 FAHREN_MAGIC ++ bytesOfUInt32 FAHREN_VERSION_MAJOR ++
      bytesOfUInt32 FAHREN_VERSION_MINOR ++ bytesOfUInt32 FAHREN_VERSION_PATCH ++
      bytesOfUInt64 tw ++ bytesOfUInt64 tb ++
      bytesOfFloats ws ++ bytesOfFloats bs := by
  unfold blobChunks
  rcases Nat.eq_zero_or_pos tw with h1 | h1
  · have hws : ws = [] := List.eq_nil_of_length_eq_zero (by omega)
    rcases Nat.eq_zero_or_pos tb with h2 | h2
    · have hbs : bs = [] := List.eq_nil_of_length_eq_zero (by omega)
      subst hws hbs
      simp [h1, h2, bytesOfFloats, List.append_assoc]
    · subst hws
      simp [h1, h2, bytesOfFloats, List.append_assoc]
  · rcases Nat.eq_zero_or_pos tb with h2 | h2
    · have hbs : bs = [] := List.eq_nil_of_length_eq_zero (by omega)
      subst hbs
      simp [h1, h2, bytesOfFloats, List.append_assoc]
    · simp [h1, h2, List.append_assoc]

/-- Inversion of a successful `fahren_write_random_weights` call: the
counting loop succeeded, the fill loop produced buffers of exactly the
counted sizes, and the single file written at `path` is the header
followed by the two serialized buffers. -/
theorem write_success_shape (env : WriteEnv) (cm : FAHREN) (path : String)
    (files : List (String × List Nat))
    (h : fahren_write_random_weights env (some cm) (some path) =
      (FAHRENStatus.FAHREN_SUCCESS, files)) :
    ∃ tw tb, countParams (modelLayers cm) 0 0 = some (tw, tb) ∧
      (fillBuffers env.rng (modelLayers cm) 0).1.length = tw ∧
      (fillBuffers env.rng (modelLayers cm) 0).2.length = tb ∧
      files = [(path,
        bytesOfUInt32 FAHREN_MAGIC ++ bytesOfUInt32 FAHREN_VERSION_MAJOR ++
        bytesOfUInt32 FAHREN_VERSION_MINOR ++ bytesOfUInt32 FAHREN_VERSION_PATCH ++
        bytesOfUInt64 tw ++ bytesOfUInt64 tb ++
        bytesOfFloats (fillBuffers env.rng (modelLayers cm) 0).1 ++
        bytesOfFloats (fillBuffers env.rng (modelLayers cm) 0).2)] := by
  simp only [fahren_write_random_weights] at h
  split at h
  · exact absurd h (by simp)
  · split at h
    · exact absurd h (by simp)
    · rename_i nonzero counted tw tb heq
      refine ⟨tw, tb, heq, ?_⟩
      have hsum := countParams_some_eq _ _ _ _ _ heq
      have hlen := fillBuffers_length env.rng (modelLayers cm) 0
      have hw : (fillBuffers env.rng (modelLayers cm) 0).1.length = tw := by omega
      have hb : (fillBuffers env.rng (modelLayers cm) 0).2.length = tb := by omega
      refine ⟨hw, hb, ?_⟩
      split at h
      · exact absurd h (by simp)
      · split at h
        · exact absurd h (by simp)
        · split at h
          · exact absurd h (by simp)
          · split at h
            · exact absurd h (by simp)
            · have hfiles := (Prod.mk.injEq _ _ _ _).mp h
              rw [← hfiles.2, blobChunks_flatten tw tb _ _ hw hb]

/-- Whenever counting succeeds on an initialized handle and every `malloc`,
the `fopen` and at least 8 `fwrite` calls succeed, the write returns
`FAHREN_SUCCESS`. -/
theorem write_status_success (env : WriteEnv) (cm : FAHREN) (path : String)
    (tw tb : Nat) (hinit : ¬ cm.initialized = 0)
    (hcount : countParams (modelLayers cm) 0 0 = some (tw, tb))
    (hw : env.weights_alloc_ok = true) (hb : env.biases_alloc_ok = true)
    (ho : env.open_ok = true) (hbud : 8 ≤ env.fwrite_budget) :
    (fahren_write_random_weights env (some cm) (some path)).1 =
      FAHRENStatus.FAHREN_SUCCESS := by
  have hlen := blobChunks_length_le tw tb
    (fillBuffers env.rng (modelLayers cm) 0).1
    (fillBuffers env.rng (modelLayers cm) 0).2
  simp only [fahren_write_random_weights, hcount]
  rw [if_neg hinit]
  rw [if_neg (by simp [hw]), if_neg (by simp [hb]), if_neg (by simp [ho]),
    if_neg (by omega)]

/-!  Claim theorems. -/

/-- C1, counterexample: for the convolutional layer `wideLayer1` (density
`INT_MAX = 2147483647`, predecessor of density `INT_MAX`) the Counter's
per-layer weight count is the value wrapped modulo `2 ^ 64`
(4611685979772682249), not `in_dim * out_dim * 9` (41505174127191785481),
and the totals the counting loop returns differ accordingly from the
claimed sums. -/
theorem counter_weight_formula_cex :
    layerWeights wideLayer1 = 4611685979772682249 ∧
    in_dim wideLayer1 * toSize wideLayer1.density * 9 = 41505174127191785481 ∧
    ¬ layerWeights wideLayer1 = in_dim wideLayer1 * toSize wideLayer1.density * 9 ∧
    countParams [wideLayer0, wideLayer1] 0 0 =
      some (4611685981920165896, 4294967294) ∧
    ¬ (4611685981920165896 : Nat) =
      in_dim wideLayer0 * toSize wideLayer0.density +
        in_dim wideLayer1 * toSize wideLayer1.density * 9 := by
  refine ⟨by decide, by decide, by decide, by decide, by decide⟩

/-- C1 (amended): for every layer sequence on which the counting loop
succeeds, the returned totals are the sums of the per-layer counts; the
per-layer weight count is `in_dim * out_dim`, multiplied by 9 exactly when
the layer is convolutional, computed in wrapping `size_t` arithmetic
(reduced modulo `2 ^ 64`) and hence equal to the exact product whenever
that product is below `2 ^ 64`; the per-layer bias count is `out_dim`
regardless of kind. -/
theorem counter_per_layer_rule (xs : List FAHRENLayer) (tw tb : Nat)
    (h : countParams xs 0 0 = some (tw, tb)) :
    tw = sumWeights xs ∧ tb = sumBiases xs ∧
    ∀ layer ∈ xs,
      layerWeights layer =
        in_dim layer * toSize layer.density * kernelFactor layer % 2 ^ 64 ∧
      (in_dim layer * toSize layer.density * kernelFactor layer < 2 ^ 64 →
        layerWeights layer = in_dim layer * toSize layer.density * kernelFactor layer) := by
  have hsum := countParams_some_eq xs 0 0 tw tb h
  refine ⟨by omega, by omega, ?_⟩
  intro layer _
  by_cases hc : layer.layer_type = FAHRENLayerType.FAHREN_LAYER_CONVOLUTIONAL
  · constructor
    · simp only [layerWeights, kernelFactor, if_pos hc]
      rw [Nat.mul_mod (in_dim layer * toSize layer.density) 9]
      norm_num
    · intro hlt
      simp only [kernelFactor, if_pos hc] at hlt
      simp only [layerWeights, kernelFactor, if_pos hc]
      have ha : in_dim layer * toSize layer.density < 2 ^ 64 := by omega
      rw [Nat.mod_eq_of_lt ha, Nat.mod_eq_of_lt hlt]
  · constructor
    · simp only [layerWeights, kernelFactor, if_neg hc, Nat.mul_one]
    · intro hlt
      simp only [kernelFactor, if_neg hc, Nat.mul_one] at hlt
      simp only [layerWeights, kernelFactor, if_neg hc, Nat.mul_one]
      exact Nat.mod_eq_of_lt hlt

/-- Witness for `counter_per_layer_rule` at the [3, 2] Dense sequence. -/
theorem counter_per_layer_rule_witness :
    (9 : Nat) = sumWeights [scenarioLayer0, scenarioLayer1] ∧
    (5 : Nat) = sumBiases [scenarioLayer0, scenarioLayer1] ∧
    ∀ layer ∈ [scenarioLayer0, scenarioLayer1],
      layerWeights layer =
        in_dim layer * toSize layer.density * kernelFactor layer % 2 ^ 64 ∧
      (in_dim layer * toSize layer.density * kernelFactor layer < 2 ^ 64 →
        layerWeights layer = in_dim layer * toSize layer.density * kernelFactor layer) :=
  counter_per_layer_rule [scenarioLayer0, scenarioLayer1] 9 5 (by decide)

/-- C2, code bug: for the sequence [overflowLayer0, overflowLayer1] the
true mathematical weight total is `1500000000 + 9 * 1500000000 * 1366425487
= 18446744076000000000 > SIZE_MAX`, yet the counting loop succeeds with
the silently wrapped total 2290448384 — the `layer_weights *= 9`
multiplication wraps modulo `2 ^ 64` before the only overflow check runs —
and the full write then returns `FAHREN_SUCCESS` in an environment where
allocation and I/O succeed, instead of the `FAHREN_ERROR_PROCESSING_FAILED`
the claim requires. -/
theorem counting_overflow_wraps :
    in_dim overflowLayer0 * toSize overflowLayer0.density +
      in_dim overflowLayer1 * toSize overflowLayer1.density * 9 =
      18446744076000000000 ∧
    SIZE_MAX < 18446744076000000000 ∧
    countParams [overflowLayer0, overflowLayer1] 0 0 =
      some (2290448384, 2866425487) ∧
    (fahren_write_random_weights envOK (some overflowHandle)
      (some "fahren_model.bin")).1 = FAHRENStatus.FAHREN_SUCCESS ∧
    ¬ (2290448384 : Nat) = 18446744076000000000 := by
  refine ⟨by decide, by decide, by decide, ?_, by decide⟩
  exact write_status_success envOK overflowHandle "fahren_model.bin"
    2290448384 2866425487 (by decide) (by decide) rfl rfl rfl (by decide)

/-- C3, counterexample: for the [3, 2] Dense scenario handle, a successful
write produces a file of 88 bytes while the claimed size formula
`24 + 4 * total_weights + 4 * total_biases` gives `24 + 36 + 20 = 80`:
the header is 32 bytes (4 + 4 + 4 + 4 + 8 + 8), not 24. -/
theorem blob_size_formula_cex :
    countParams (modelLayers scenarioHandle) 0 0 = some (9, 5) ∧
    (fahren_write_random_weights envOK (some scenarioHandle)
      (some "scenario.bin")).1 = FAHRENStatus.FAHREN_SUCCESS ∧
    ((fahren_write_random_weights envOK (some scenarioHandle)
      (some "scenario.bin")).2.map fun f => f.2.length) = [88] ∧
    ¬ (24 + 4 * 9 + 4 * 5 : Nat) = 88 := by
  refine ⟨by decide, by decide, by decide, by decide⟩

/-- C3 (amended): whenever `fahren_write_random_weights` succeeds, the file
at the path consists of exactly, in order: the 4-byte magic constant, the
4-byte major, minor and patch versions, the 8-byte weight total and the
8-byte bias total computed by the counting loop for the handle's sequence,
then `total_weights` 4-byte single-precision floats and `total_biases`
4-byte single-precision floats, so the total file size is
`32 + 4 * total_weights + 4 * total_biases` bytes (a 32-byte header, not
24 as claimed). -/
theorem write_blob_layout (env : WriteEnv) (cm : FAHREN) (path : String)
    (files : List (String × List Nat))
    (h : fahren_write_random_weights env (some cm) (some path) =
      (FAHRENStatus.FAHREN_SUCCESS, files)) :
    ∃ tw tb, countParams (modelLayers cm) 0 0 = some (tw, tb) ∧
      ∃ wbytes bbytes,
        wbytes = bytesOfFloats (fillBuffers env.rng (modelLayers cm) 0).1 ∧
        bbytes = bytesOfFloats (fillBuffers env.rng (modelLayers cm) 0).2 ∧
        wbytes.length = 4 * tw ∧ bbytes.length = 4 * tb ∧
        files = [(path,
          bytesOfUInt32 FAHREN_MAGIC ++ bytesOfUInt32 FAHREN_VERSION_MAJOR ++
          bytesOfUInt32 FAHREN_VERSION_MINOR ++ bytesOfUInt32 FAHREN_VERSION_PATCH ++
          bytesOfUInt64 tw ++ bytesOfUInt64 tb ++ wbytes ++ bbytes)] ∧
        (files.map fun f => f.2.length) = [32 + 4 * tw + 4 * tb] := by
  obtain ⟨tw, tb, hcount, hw, hb, hfiles⟩ := write_success_shape env cm path files h
  have hwlen : (bytesOfFloats (fillBuffers env.rng (modelLayers cm) 0).1).length =
      4 * tw := by rw [bytesOfFloats_length, hw]
  have hblen : (bytesOfFloats (fillBuffers env.rng (modelLayers cm) 0).2).length =
      4 * tb := by rw [bytesOfFloats_length, hb]
  refine ⟨tw, tb, hcount, _, _, rfl, rfl, hwlen, hblen, hfiles, ?_⟩
  rw [hfiles]
  simp only [List.map_cons, List.map_nil, List.length_append, hwlen, hblen,
    bytesOfUInt32, bytesOfUInt64, List.length_cons, List.length_nil]

/-- Witness for `write_blob_layout` at the one-layer `tinyHandle` in
`envOK`. -/
theorem write_blob_layout_witness :
    ∃ tw tb, countParams (modelLayers tinyHandle) 0 0 = some (tw, tb) ∧
      ∃ wbytes bbytes,
        wbytes = bytesOfFloats (fillBuffers envOK.rng (modelLayers tinyHandle) 0).1 ∧
        bbytes = bytesOfFloats (fillBuffers envOK.rng (modelLayers tinyHandle) 0).2 ∧
        wbytes.length = 4 * tw ∧ bbytes.length = 4 * tb ∧
        tinyFiles = [("model.bin",
          bytesOfUInt32 FAHREN_MAGIC ++ bytesOfUInt32 FAHREN_VERSION_MAJOR ++
          bytesOfUInt32 FAHREN_VERSION_MINOR ++ bytesOfUInt32 FAHREN_VERSION_PATCH ++
          bytesOfUInt64 tw ++ bytesOfUInt64 tb ++ wbytes ++ bbytes)] ∧
        (tinyFiles.map fun f => f.2.length) = [32 + 4 * tw + 4 * tb] :=
  write_blob_layout envOK tinyHandle "model.bin" tinyFiles (by rfl)

/-- C4: for the two-Dense-layer sequence of densities [3, 2] (second
layer's predecessor the first), the Counter gives layer 0 weights 3 and
biases 3 (in_dim 1), layer 1 weights 6 and biases 2 (in_dim 3), totals
(9, 5), and every successful write of the handle produces one file of
exactly 88 bytes. -/
theorem scenario_counts :
    in_dim scenarioLayer0 = 1 ∧ layerWeights scenarioLayer0 = 3 ∧
    toSize scenarioLayer0.density = 3 ∧
    in_dim scenarioLayer1 = 3 ∧ layerWeights scenarioLayer1 = 6 ∧
    toSize scenarioLayer1.density = 2 ∧
    countParams (modelLayers scenarioHandle) 0 0 = some (9, 5) ∧
    ∀ (env : WriteEnv) (path : String) (files : List (String × List Nat)),
      fahren_write_random_weights env (some scenarioHandle) (some path) =
        (FAHRENStatus.FAHREN_SUCCESS, files) →
      (files.map fun f => f.2.length) = [88] := by
  refine ⟨by decide, by decide, by decide, by decide, by decide, by decide,
    by decide, ?_⟩
  intro env path files h
  obtain ⟨tw, tb, hcount, hw, hb, hfiles⟩ := write_success_shape env scenarioHandle path files h
  have hc : countParams (modelLayers scenarioHandle) 0 0 = some (9, 5) := by decide
  rw [hc] at hcount
  simp only [Option.some.injEq, Prod.mk.injEq] at hcount
  obtain ⟨htw, htb⟩ := hcount
  subst htw htb
  rw [hfiles]
  simp [List.length_append, bytesOfFloats_length, hw, hb,
    bytesOfUInt32, bytesOfUInt64]

/-- Witness for `scenario_counts`: the successful write in `envOK` at a
concrete path yields a single 88-byte file. -/
theorem scenario_counts_witness :
    ((fahren_write_random_weights envOK (some scenarioHandle)
      (some "scenario88.bin")).2.map fun f => f.2.length) = [88] :=
  scenario_counts.2.2.2.2.2.2.2 envOK "scenario88.bin"
    (fahren_write_random_weights envOK (some scenarioHandle)
      (some "scenario88.bin")).2 rfl

/-- C5: `fahren_write_random_weights` returns InvalidArgument whenever the
handle or the path is null, returns NotInitialized whenever the handle is
non-null but not initialized, and in the NotInitialized case (as in the
InvalidArgument cases) the result is independent of the environment and
no file-system effect occurs: no counting outcome, allocation outcome or
I/O outcome can influence it, and no file is created at the path. -/
theorem write_argument_checks :
    (∀ (env : WriteEnv) (path : Option String),
      fahren_write_random_weights env none path =
        (FAHRENStatus.FAHREN_ERROR_INVALID_ARGUMENT, [])) ∧
    (∀ (env : WriteEnv) (cm : Option FAHREN),
      fahren_write_random_weights env cm none =
        (FAHRENStatus.FAHREN_ERROR_INVALID_ARGUMENT, [])) ∧
    (∀ (env : WriteEnv) (cm : FAHREN) (path : String), cm.initialized = 0 →
      fahren_write_random_weights env (some cm) (some path) =
        (FAHRENStatus.FAHREN_ERROR_NOT_INITIALIZED, [])) := by
  refine ⟨fun env path => rfl, fun env cm => ?_, fun env cm path h => ?_⟩
  · cases cm <;> rfl
  · simp [fahren_write_random_weights, h]

/-- Witness for `write_argument_checks` at concrete inputs: a null handle,
a null path, and the uninitialized `staleHandle`. -/
theorem write_argument_checks_witness :
    fahren_write_random_weights envOK none (some "weights.bin") =
      (FAHRENStatus.FAHREN_ERROR_INVALID_ARGUMENT, []) ∧
    fahren_write_random_weights envOK (some scenarioHandle) none =
      (FAHRENStatus.FAHREN_ERROR_INVALID_ARGUMENT, []) ∧
    fahren_write_random_weights envOK (some staleHandle) (some "weights.bin") =
      (FAHRENStatus.FAHREN_ERROR_NOT_INITIALIZED, []) :=
  ⟨write_argument_checks.1 envOK (some "weights.bin"),
   write_argument_checks.2.1 envOK (some scenarioHandle),
   write_argument_checks.2.2 envOK staleHandle "weights.bin" rfl⟩

/-- C6: parameter counting is a pure, deterministic function of the layer
sequence — two runs of the counting loop on identical sequences return
identical totals (the functional embedding makes non-mutation of the
sequence structural, so a second invocation receives the same sequence
and yields the same result). -/
theorem counting_deterministic (xs ys : List FAHRENLayer) (h : xs = ys) :
    countParams xs 0 0 = countParams ys 0 0 ∧
    ∀ tw0 tb0, countParams xs tw0 tb0 = countParams ys tw0 tb0 := by
  subst h
  exact ⟨rfl, fun tw0 tb0 => rfl⟩

/-- Witness for `counting_deterministic` on the [3, 2] Dense sequence. -/
theorem counting_deterministic_witness :
    countParams [scenarioLayer0, scenarioLayer1] 0 0 =
      countParams [scenarioLayer0, scenarioLayer1] 0 0 ∧
    ∀ tw0 tb0, countParams [scenarioLayer0, scenarioLayer1] tw0 tb0 =
      countParams [scenarioLayer0, scenarioLayer1] tw0 tb0 :=
  counting_deterministic [scenarioLayer0, scenarioLayer1]
    [scenarioLayer0, scenarioLayer1] rfl

/-- C7: `fahren_init` returns InvalidArgument whenever the handle is null,
the layer sequence is null, or `layer_count` is 0, and in every such case
the handle contents are returned unmodified, no write is triggered and no
file is created. -/
theorem init_invalid_argument (env : WriteEnv) (cm : Option FAHREN)
    (model_type : FAHRENModelType) (layer_count : Nat)
    (layers : Option (List FAHRENLayer))
    (h : cm = none ∨ layers = none ∨ layer_count = 0) :
    fahren_init env cm model_type layer_count layers =
      ⟨FAHRENStatus.FAHREN_ERROR_INVALID_ARGUMENT, cm, [], []⟩ := by
  rcases h with h | h | h
  · subst h; cases layers <;> rfl
  · subst h; cases cm <;> rfl
  · subst h
    cases cm with
    | none => cases layers <;> rfl
    | some c => cases layers with
      | none => rfl
      | some ls => simp [fahren_init]

/-- Witness for `init_invalid_argument`: `layer_count = 0` with a non-null
handle and sequence. -/
theorem init_invalid_argument_witness :
    fahren_init envOK (some staleHandle)
      FAHRENModelType.FAHREN_MODEL_SEQUENTIAL 0 (some [scenarioLayer0]) =
      ⟨FAHRENStatus.FAHREN_ERROR_INVALID_ARGUMENT, some staleHandle, [], []⟩ :=
  init_invalid_argument envOK (some staleHandle)
    FAHRENModelType.FAHREN_MODEL_SEQUENTIAL 0 (some [scenarioLayer0])
    (Or.inr (Or.inr rfl))

/-- C8: with valid arguments, `fahren_init` stores the model kind, layer
count and layer sequence into the handle, marks it initialized, and
triggers exactly one write of an initial-weights artifact, to the fixed
default path "fahren_initial_model.bin", before returning. -/
theorem init_success_effects (env : WriteEnv) (cm : FAHREN)
    (model_type : FAHRENModelType) (layer_count : Nat)
    (layers : List FAHRENLayer) (h : ¬ layer_count = 0) :
    ∃ c' : FAHREN,
      c'.initialized = 1 ∧ c'.layer_count = layer_count ∧
      c'.model_type = model_type ∧ c'.layers = layers ∧
      fahren_init env (some cm) model_type layer_count (some layers) =
        ⟨FAHRENStatus.FAHREN_SUCCESS, some c',
         [(c', "fahren_initial_model.bin")],
         (fahren_write_random_weights env (some c')
           (some "fahren_initial_model.bin")).2⟩ := by
  refine ⟨⟨1, layer_count, model_type, layers⟩, rfl, rfl, rfl, rfl, ?_⟩
  simp [fahren_init, h]

/-- Witness for `init_success_effects` at a concrete one-layer
initialization. -/
theorem init_success_effects_witness :
    ∃ c' : FAHREN,
      c'.initialized = 1 ∧ c'.layer_count = 1 ∧
      c'.model_type = FAHRENModelType.FAHREN_MODEL_SEQUENTIAL ∧
      c'.layers = [scenarioLayer0] ∧
      fahren_init envOK (some staleHandle)
          FAHRENModelType.FAHREN_MODEL_SEQUENTIAL 1 (some [scenarioLayer0]) =
        ⟨FAHRENStatus.FAHREN_SUCCESS, some c',
         [(c', "fahren_initial_model.bin")],
         (fahren_write_random_weights envOK (some c')
           (some "fahren_initial_model.bin")).2⟩ :=
  init_success_effects envOK staleHandle
    FAHRENModelType.FAHREN_MODEL_SEQUENTIAL 1 [scenarioLayer0] (by decide)

/-- C9: with valid arguments `fahren_init` returns Success for every
environment — in particular for environments in which the automatic
initial-weights write fails with allocation or I/O errors, whose status
is discarded — and the handle remains marked initialized. -/
theorem init_discards_write_status (env : WriteEnv) (cm : FAHREN)
    (model_type : FAHRENModelType) (layer_count : Nat)
    (layers : List FAHRENLayer) (h : ¬ layer_count = 0) :
    (fahren_init env (some cm) model_type layer_count (some layers)).status =
      FAHRENStatus.FAHREN_SUCCESS ∧
    ∃ c' : FAHREN,
      (fahren_init env (some cm) model_type layer_count (some layers)).handle =
        some c' ∧ c'.initialized = 1 := by
  refine ⟨by simp [fahren_init, h], ⟨1, layer_count, model_type, layers⟩,
    by simp [fahren_init, h], rfl⟩

/-- Witness for `init_discards_write_status` in `envNoOpen`, where the
triggered write fails with a Processing error (shown alongside): the
status is Success and the handle ends up initialized anyway. -/
theorem init_discards_write_status_witness :
    ((fahren_init envNoOpen (some staleHandle)
        FAHRENModelType.FAHREN_MODEL_SEQUENTIAL 1 (some [scenarioLayer0])).status =
      FAHRENStatus.FAHREN_SUCCESS ∧
    ∃ c' : FAHREN,
      (fahren_init envNoOpen (some staleHandle)
          FAHRENModelType.FAHREN_MODEL_SEQUENTIAL 1 (some [scenarioLayer0])).handle =
        some c' ∧ c'.initialized = 1) ∧
    (fahren_write_random_weights envNoOpen
      (some ⟨1, 1, FAHRENModelType.FAHREN_MODEL_SEQUENTIAL, [scenarioLayer0]⟩)
      (some "fahren_initial_model.bin")).1 =
      FAHRENStatus.FAHREN_ERROR_PROCESSING_FAILED :=
  ⟨init_discards_write_status envNoOpen staleHandle
      FAHRENModelType.FAHREN_MODEL_SEQUENTIAL 1 [scenarioLayer0] (by decide),
   by rfl⟩

/-- C10: whenever the counting loop succeeds with totals (tw, tb), the
fill loop produces exactly tw weight samples and exactly tb bias samples
for the same sequence, whatever the random stream — the running buffer
indices of the C fill loop therefore end exactly at the counted totals,
every store is in bounds and no element is left unfilled. -/
theorem fill_stays_in_bounds (rng : Nat → Nat) (xs : List FAHRENLayer)
    (tw tb : Nat) (h : countParams xs 0 0 = some (tw, tb)) :
    (fillBuffers rng xs 0).1.length = tw ∧
    (fillBuffers rng xs 0).2.length = tb := by
  have hsum := countParams_some_eq xs 0 0 tw tb h
  have hlen := fillBuffers_length rng xs 0
  omega

/-- Witness for `fill_stays_in_bounds` on the [3, 2] Dense sequence with
the all-zero random stream. -/
theorem fill_stays_in_bounds_witness :
    (fillBuffers (fun _ => 0) [scenarioLayer0, scenarioLayer1] 0).1.length = 9 ∧
    (fillBuffers (fun _ => 0) [scenarioLayer0, scenarioLayer1] 0).2.length = 5 :=
  fill_stays_in_bounds (fun _ => 0) [scenarioLayer0, scenarioLayer1] 9 5 (by decide)
